import Mathlib

/-!
Verification of the authentication / credential-lifecycle core of the
QA-monitor repository: the user model (src/models/User.ts) and the
forgot-password and reset-password API routes
(src/app/api/auth/forgot-password/route.ts,
src/app/api/auth/reset-password/route.ts), plus the login client handler
(src/app/login/page.tsx).

Conventions of the embedding:
- timestamps are natural numbers of milliseconds (JS Date.getTime);
- the SHA-256 hex digest is an arbitrary function `sha : String → String`
  (the routes only compare digests for equality);
- bcrypt hashing `bcrypt.hash` after `bcrypt.genSalt cost` is an arbitrary
  fallible function `bch : Nat → String → Except String String` taking the
  cost factor and the plaintext;
- the 32 random bytes of `crypto.randomBytes(32).toString('hex')` are an
  arbitrary string parameter `rnd`;
- a missing JSON field is `Option.none`; JS falsiness of a string field
  (`!x`) is "absent or empty";
- the database is a list of accounts; `findOne` is `List.find?` and a
  mongoose `save` writes back over the first matching record.
-/

namespace QaMonitor

/-- A persisted user account, after IUser in src/models/User.ts.
`passwordModified` models mongoose dirty tracking of the password path
(`this.isModified('password')`): false on a document freshly loaded from
the database, true once the password field has been assigned. -/
structure UserAccount where
  name : String
  email : String
  password : String
  isActive : Bool
  isFirstLogin : Bool
  resetPasswordToken : Option String
  resetPasswordExpires : Option Nat
  lastLoginAt : Option Nat
  passwordModified : Bool
  deriving Repr, DecidableEq

/-- Loading a document from the database yields an instance with no
modified paths. -/
def load (u : UserAccount) : UserAccount := { u with passwordModified := false }

/-- The pre-save hook of UserSchema (src/models/User.ts lines 64-74):
skip when the password path is not modified, otherwise hash with bcrypt
at cost factor 12, propagating a hashing error to the write path. -/
def preSave (bch : Nat → String → Except String String) (u : UserAccount) :
    Except String UserAccount :=
  if u.passwordModified then
    match bch 12 u.password with
    | Except.ok hashed => Except.ok { u with password := hashed, passwordModified := false }
    | Except.error e => Except.error e
  else
    Except.ok u

/-- generatePasswordResetToken (src/models/User.ts lines 82-87): store the
SHA-256 digest of the fresh random token and an expiry 10 minutes from
now, and return the plaintext token. `rnd` stands for the hex string of
crypto.randomBytes(32). -/
def generatePasswordResetToken (sha : String → String) (rnd : String) (now : Nat)
    (u : UserAccount) : String × UserAccount :=
  (rnd, { u with
            resetPasswordToken := some (sha rnd),
            resetPasswordExpires := some (now + 10 * 60 * 1000) })

/-- clearPasswordResetToken (src/models/User.ts lines 90-93): drop both
reset-token fields. -/
def clearPasswordResetToken (u : UserAccount) : UserAccount :=
  { u with resetPasswordToken := none, resetPasswordExpires := none }

/-- JS falsiness of an optional string request field: absent or empty. -/
def falsyStr : Option String → Bool
  | none => true
  | some s => s == ""

/-- The JS String.prototype.toLowerCase call on the email, character by
character. -/
def toLowerStr (s : String) : String := String.mk (s.data.map Char.toLower)

/-- The `resetPasswordExpires: \x7b $gt: new Date() \x7d` part of the
reset-password query: the expiry field is present and strictly in the
future. -/
def expiresAfter (now : Nat) (u : UserAccount) : Bool :=
  match u.resetPasswordExpires with
  | some e => decide (now < e)
  | none => false

/-- The full reset-password findOne filter: stored token digest equals the
digest of the presented token, and expiry is strictly greater than now. -/
def resetTokenQueryMatch (hashedToken : String) (now : Nat) (u : UserAccount) : Bool :=
  u.resetPasswordToken == some hashedToken && expiresAfter now u

/-- mongoose save writes the document back over the first record matching
the filter it was found by. -/
def updateFirst (p : UserAccount → Bool) (f : UserAccount → UserAccount) :
    List UserAccount → List UserAccount
  | [] => []
  | u :: rest => if p u then f u :: rest else u :: updateFirst p f rest

/-- The JSON body of POST /reset-password. -/
structure ResetPasswordBody where
  token : Option String
  password : Option String
  confirmPassword : Option String
  deriving Repr, DecidableEq

/-- The JSON body of POST /forgot-password. -/
structure ForgotPasswordBody where
  email : Option String
  deriving Repr, DecidableEq

/-- A NextResponse.json payload with its HTTP status: `message` and
`error` and `resetToken` are absent when the route does not set them
(JSON serialization drops undefined fields). -/
structure ApiResponse where
  status : Nat
  success : Bool
  message : Option String
  error : Option String
  resetToken : Option String
  deriving Repr, DecidableEq

def respRequired : ApiResponse :=
  ⟨400, false, none, some "Token, password, and confirm password are required", none⟩

def respMismatch : ApiResponse :=
  ⟨400, false, none, some "Passwords do not match", none⟩

def respTooShort : ApiResponse :=
  ⟨400, false, none, some "Password must be at least 6 characters long", none⟩

def respInvalidToken : ApiResponse :=
  ⟨400, false, none, some "Invalid or expired reset token", none⟩

def respResetOk : ApiResponse :=
  ⟨200, true, some "Password has been reset successfully", none, none⟩

def respResetFail : ApiResponse :=
  ⟨500, false, none, some "Failed to reset password", none⟩

def respEmailRequired : ApiResponse :=
  ⟨400, false, none, some "Email is required", none⟩

def respForgotOk (rt : Option String) : ApiResponse :=
  ⟨200, true, some "If an account with that email exists, a password reset link has been sent.",
   none, rt⟩

def respForgotFail : ApiResponse :=
  ⟨500, false, none, some "Failed to process forgot password request", none⟩

/-- POST /api/auth/reset-password (src/app/api/auth/reset-password/route.ts):
validate the body, look the account up by token digest and unexpired
expiry, then set the new password, end first-login, clear the reset
token, stamp lastLoginAt, and save once (running the pre-save hook). -/
def resetPasswordPOST (sha : String → String) (bch : Nat → String → Except String String)
    (now : Nat) (db : List UserAccount) (body : ResetPasswordBody) :
    ApiResponse × List UserAccount :=
  if falsyStr body.token || falsyStr body.password || falsyStr body.confirmPassword then
    (respRequired, db)
  else if body.password.getD "" ≠ body.confirmPassword.getD "" then
    (respMismatch, db)
  else if (body.password.getD "").length < 6 then
    (respTooShort, db)
  else
    let hashedToken := sha (body.token.getD "")
    let q := resetTokenQueryMatch hashedToken now
    match (db.find? q).map load with
    | none => (respInvalidToken, db)
    | some user =>
      let updated :=
        { clearPasswordResetToken
            { user with
                password := body.password.getD "",
                passwordModified := true,
                isFirstLogin := false } with
          lastLoginAt := some now }
      match preSave bch updated with
      | Except.ok saved => (respResetOk, updateFirst q (fun _ => saved) db)
      | Except.error _ => (respResetFail, db)

/-- POST /api/auth/forgot-password (src/app/api/auth/forgot-password/route.ts):
require an email, answer with the same generic message whether the
account is missing or inactive, and otherwise issue a reset token and
save; the plaintext token is echoed only in development mode. -/
def forgotPasswordPOST (sha : String → String) (bch : Nat → String → Except String String)
    (devMode : Bool) (rnd : String) (now : Nat)
    (db : List UserAccount) (body : ForgotPasswordBody) :
    ApiResponse × List UserAccount :=
  if falsyStr body.email then
    (respEmailRequired, db)
  else
    let q := fun (u : UserAccount) => u.email == toLowerStr (body.email.getD "")
    match (db.find? q).map load with
    | none => (respForgotOk none, db)
    | some user =>
      if !user.isActive then
        (respForgotOk none, db)
      else
        let r := generatePasswordResetToken sha rnd now user
        match preSave bch r.2 with
        | Except.ok saved =>
          (respForgotOk (if devMode then some r.1 else none), updateFirst q (fun _ => saved) db)
        | Except.error _ => (respForgotFail, db)

/-- The outcome of the server-side login flow. -/
inductive LoginOutcome where
  | failure (error : String)
  | resetRequired (resetToken : String)
  | authenticated (token : String)
  deriving Repr, DecidableEq

/-- Modelled from the spec: the POST /login route handler is not among the
provided sources (only its client in src/app/login/page.tsx is), so the
Session Issuer `authenticate` of spec section 4.3 is modelled from the
spec's words: look the account up by case-insensitive email; if absent,
inactive, or the secret does not verify, fail uniformly; if matched and
isFirstLogin, do not issue a session token but issue a reset token and
signal PasswordResetRequired carrying it; otherwise update lastLoginAt
and issue a bearer token bound to the identity. -/
def authenticate (verify : String → String → Bool) (sha : String → String)
    (issueToken : String → String) (rnd : String) (now : Nat)
    (db : List UserAccount) (email password : String) :
    LoginOutcome × List UserAccount :=
  let q := fun (u : UserAccount) => u.email == toLowerStr email
  match (db.find? q).map load with
  | none => (LoginOutcome.failure "Login failed", db)
  | some user =>
    if !user.isActive then
      (LoginOutcome.failure "Login failed", db)
    else if !verify password user.password then
      (LoginOutcome.failure "Login failed", db)
    else if user.isFirstLogin then
      let r := generatePasswordResetToken sha rnd now user
      (LoginOutcome.resetRequired r.1, updateFirst q (fun _ => r.2) db)
    else
      let user2 := { user with lastLoginAt := some now }
      (LoginOutcome.authenticated (issueToken user.email), updateFirst q (fun _ => user2) db)

/-- Modelled from the spec: the JSON shape of the POST /login response,
from spec section 6: success with data.token, or success with
requiresPasswordReset and resetToken, or failure with an error. -/
structure LoginResponseData where
  success : Bool
  requiresPasswordReset : Bool
  resetToken : Option String
  dataToken : Option String
  error : Option String
  deriving Repr, DecidableEq

/-- Modelled from the spec: how the missing login route serializes its
outcome into the section-6 response shape. -/
def loginResponseOf : LoginOutcome → LoginResponseData
  | LoginOutcome.failure e =>
    ⟨false, false, none, none, some e⟩
  | LoginOutcome.resetRequired t =>
    ⟨true, true, some t, none, none⟩
  | LoginOutcome.authenticated t =>
    ⟨true, false, none, some t, none⟩

/-- What the login client does after the response: navigate somewhere,
possibly storing a bearer token in localStorage, or show an error. -/
structure ClientAction where
  storedToken : Option String
  route : Option String
  errorShown : Option String
  deriving Repr, DecidableEq

/-- The success branch of handleSubmit in src/app/login/page.tsx
(lines 62-74): on requiresPasswordReset redirect to the reset-password
page carrying the token in the query string without storing anything;
on a normal success store the token and go to the dashboard; otherwise
show the error. A JS template literal renders an undefined field as the
string "undefined". -/
def handleLoginResponse (r : LoginResponseData) : ClientAction :=
  if r.success then
    if r.requiresPasswordReset then
      { storedToken := none,
        route := some ("/reset-password?token=" ++ r.resetToken.getD "undefined" ++ "&first=true"),
        errorShown := none }
    else
      { storedToken := some (r.dataToken.getD "undefined"),
        route := some "/dashboard",
        errorShown := none }
  else
    { storedToken := none, route := none, errorShown := some (r.error.getD "Login failed") }

/-- The reset-token fields are either both absent or both present. -/
def resetConsistent (u : UserAccount) : Prop :=
  u.resetPasswordToken.isSome = u.resetPasswordExpires.isSome

lemma preSave_ok_of_unmodified (bch : Nat → String → Except String String)
    (u : UserAccount) (h : u.passwordModified = false) :
    preSave bch u = Except.ok u := by
  simp [preSave, h]

lemma preSave_ok_fields (bch : Nat → String → Except String String)
    {u v : UserAccount} (h : preSave bch u = Except.ok v) :
    v.name = u.name ∧ v.email = u.email ∧ v.isActive = u.isActive ∧
      v.isFirstLogin = u.isFirstLogin ∧
      v.resetPasswordToken = u.resetPasswordToken ∧
      v.resetPasswordExpires = u.resetPasswordExpires ∧
      v.lastLoginAt = u.lastLoginAt := by
  unfold preSave at h
  by_cases hm : u.passwordModified
  · rw [if_pos hm] at h
    cases hb : bch 12 u.password with
    | ok hashed => rw [hb] at h; cases h; simp
    | error e => rw [hb] at h; cases h
  · rw [if_neg hm] at h
    cases h; simp

lemma mem_updateFirst (p : UserAccount → Bool) (f : UserAccount → UserAccount) :
    ∀ (db : List UserAccount) (x : UserAccount), x ∈ updateFirst p f db →
      x ∈ db ∨ ∃ u, u ∈ db ∧ x = f u
  | [], x, hx => by simp [updateFirst] at hx
  | u :: rest, x, hx => by
    rw [updateFirst] at hx
    by_cases h : p u
    · rw [if_pos h] at hx
      rcases List.mem_cons.mp hx with h1 | h1
      · exact Or.inr ⟨u, List.mem_cons_self u rest, h1⟩
      · exact Or.inl (List.mem_cons_of_mem u h1)
    · rw [if_neg h] at hx
      rcases List.mem_cons.mp hx with h1 | h1
      · exact Or.inl (List.mem_cons.mpr (Or.inl h1))
      · rcases mem_updateFirst p f rest x h1 with h2 | ⟨v, hv, he⟩
        · exact Or.inl (List.mem_cons_of_mem u h2)
        · exact Or.inr ⟨v, List.mem_cons_of_mem u hv, he⟩

lemma expiresAfter_mono {n1 n2 : Nat} (h : n1 ≤ n2) (u : UserAccount)
    (hf : expiresAfter n1 u = false) : expiresAfter n2 u = false := by
  unfold expiresAfter at hf ⊢
  cases he : u.resetPasswordExpires with
  | none => simp
  | some e =>
    rw [he] at hf
    simp at hf ⊢
    omega

/-- C10: POST /forgot-password with a missing or empty email field answers
success false, error "Email is required", HTTP 400, and leaves the
credential store untouched. -/
theorem forgot_password_missing_email (sha : String → String)
    (bch : Nat → String → Except String String) (devMode : Bool) (rnd : String)
    (now : Nat) (db : List UserAccount) (body : ForgotPasswordBody)
    (h : falsyStr body.email = true) :
    forgotPasswordPOST sha bch devMode rnd now db body = (respEmailRequired, db) := by
  simp [forgotPasswordPOST, h]

/-- Witness for C10 at a concrete absent email. -/
theorem forgot_password_missing_email_witness :
    falsyStr (ForgotPasswordBody.mk none).email = true ∧
    forgotPasswordPOST (fun s => s) (fun _ s => Except.ok s) false "r" 0 []
        (ForgotPasswordBody.mk none) = (respEmailRequired, []) :=
  ⟨rfl, forgot_password_missing_email _ _ _ _ _ _ _ rfl⟩

/-- C8: POST /reset-password rejects before touching storage, with the
database unchanged and status 400: missing token, password or
confirmPassword gives the required-fields error; a password differing
from confirmPassword gives the mismatch error; a password shorter than
6 characters gives the too-short error. -/
theorem reset_password_validation_rejects (sha : String → String)
    (bch : Nat → String → Except String String) (now : Nat)
    (db : List UserAccount) (body : ResetPasswordBody) :
    ((falsyStr body.token || falsyStr body.password || falsyStr body.confirmPassword) = true →
      resetPasswordPOST sha bch now db body = (respRequired, db)) ∧
    ((falsyStr body.token || falsyStr body.password || falsyStr body.confirmPassword) = false →
      body.password.getD "" ≠ body.confirmPassword.getD "" →
      resetPasswordPOST sha bch now db body = (respMismatch, db)) ∧
    ((falsyStr body.token || falsyStr body.password || falsyStr body.confirmPassword) = false →
      body.password.getD "" = body.confirmPassword.getD "" →
      (body.password.getD "").length < 6 →
      resetPasswordPOST sha bch now db body = (respTooShort, db)) := by
  refine ⟨?_, ?_, ?_⟩
  · intro h
    simp [resetPasswordPOST, h]
  · intro h hne
    simp [resetPasswordPOST, h, hne]
  · intro h heq hlt
    rw [heq] at hlt
    simp [resetPasswordPOST, h, heq, hlt]

/-- Witness for C8 at concrete bodies exercising all three rejection
branches. -/
theorem reset_password_validation_rejects_witness :
    resetPasswordPOST (fun s => s) (fun _ s => Except.ok s) 0 []
        ⟨none, some "abcdef", some "abcdef"⟩ = (respRequired, []) ∧
    resetPasswordPOST (fun s => s) (fun _ s => Except.ok s) 0 []
        ⟨some "t", some "abcdef", some "abcdeg"⟩ = (respMismatch, []) ∧
    resetPasswordPOST (fun s => s) (fun _ s => Except.ok s) 0 []
        ⟨some "t", some "abc", some "abc"⟩ = (respTooShort, []) :=
  ⟨(reset_password_validation_rejects _ _ _ _ _).1 (by decide),
   (reset_password_validation_rejects _ _ _ _ _).2.1 (by decide) (by decide),
   (reset_password_validation_rejects _ _ _ _ _).2.2 (by decide) (by decide) (by decide)⟩

/-- C3: POST /forgot-password answers with the same generic success
message (success true, status 200) for an existing active account, a
nonexistent email, and an inactive account; outside development mode the
three responses are identical in full. -/
theorem forgot_password_enumeration_resistance (sha : String → String)
    (bch : Nat → String → Except String String) (devMode : Bool) (rnd : String)
    (now : Nat) (db : List UserAccount)
    (eActive eMissing eInactive : String) (uA uI : UserAccount)
    (hAne : eActive ≠ "") (hMne : eMissing ≠ "") (hIne : eInactive ≠ "")
    (hA : db.find? (fun u => u.email == toLowerStr eActive) = some uA)
    (hAact : uA.isActive = true)
    (hM : db.find? (fun u => u.email == toLowerStr eMissing) = none)
    (hI : db.find? (fun u => u.email == toLowerStr eInactive) = some uI)
    (hIact : uI.isActive = false) :
    (forgotPasswordPOST sha bch devMode rnd now db ⟨some eMissing⟩).1 = respForgotOk none ∧
    (forgotPasswordPOST sha bch devMode rnd now db ⟨some eInactive⟩).1 = respForgotOk none ∧
    (forgotPasswordPOST sha bch devMode rnd now db ⟨some eActive⟩).1 =
      respForgotOk (if devMode then some rnd else none) ∧
    (forgotPasswordPOST sha bch devMode rnd now db ⟨some eActive⟩).1.success = true ∧
    (forgotPasswordPOST sha bch devMode rnd now db ⟨some eActive⟩).1.status = 200 ∧
    (forgotPasswordPOST sha bch devMode rnd now db ⟨some eActive⟩).1.message =
      (forgotPasswordPOST sha bch devMode rnd now db ⟨some eMissing⟩).1.message ∧
    (devMode = false →
      (forgotPasswordPOST sha bch devMode rnd now db ⟨some eActive⟩).1 =
        (forgotPasswordPOST sha bch devMode rnd now db ⟨some eMissing⟩).1 ∧
      (forgotPasswordPOST sha bch devMode rnd now db ⟨some eInactive⟩).1 =
        (forgotPasswordPOST sha bch devMode rnd now db ⟨some eMissing⟩).1) := by
  have hM1 : (forgotPasswordPOST sha bch devMode rnd now db ⟨some eMissing⟩).1 =
      respForgotOk none := by
    simp [forgotPasswordPOST, falsyStr, hMne, hM]
  have hI1 : (forgotPasswordPOST sha bch devMode rnd now db ⟨some eInactive⟩).1 =
      respForgotOk none := by
    simp [forgotPasswordPOST, falsyStr, hIne, hI, load, hIact]
  have hA1 : (forgotPasswordPOST sha bch devMode rnd now db ⟨some eActive⟩).1 =
      respForgotOk (if devMode then some rnd else none) := by
    simp [forgotPasswordPOST, falsyStr, hAne, hA, load, hAact,
      generatePasswordResetToken, preSave]
  refine ⟨hM1, hI1, hA1, ?_, ?_, ?_, ?_⟩
  · rw [hA1]; rfl
  · rw [hA1]; rfl
  · rw [hA1, hM1]; rfl
  · intro hdev
    rw [hA1, hM1, hI1, hdev]
    exact ⟨rfl, rfl⟩

/-- Witness for C3 at a concrete two-account store. -/
theorem forgot_password_enumeration_resistance_witness :
    (forgotPasswordPOST (fun s => s) (fun _ s => Except.ok s) false "r" 0
        [⟨"A", "a@x.com", "p", true, false, none, none, none, false⟩,
         ⟨"I", "i@x.com", "p", false, false, none, none, none, false⟩]
        ⟨some "a@x.com"⟩).1 =
      (forgotPasswordPOST (fun s => s) (fun _ s => Except.ok s) false "r" 0
        [⟨"A", "a@x.com", "p", true, false, none, none, none, false⟩,
         ⟨"I", "i@x.com", "p", false, false, none, none, none, false⟩]
        ⟨some "z@x.com"⟩).1 :=
  ((forgot_password_enumeration_resistance (fun s => s) (fun _ s => Except.ok s) false "r" 0
      [⟨"A", "a@x.com", "p", true, false, none, none, none, false⟩,
       ⟨"I", "i@x.com", "p", false, false, none, none, none, false⟩]
      "a@x.com" "z@x.com" "i@x.com"
      ⟨"A", "a@x.com", "p", true, false, none, none, none, false⟩
      ⟨"I", "i@x.com", "p", false, false, none, none, none, false⟩
      (by decide) (by decide) (by decide)
      (by decide) rfl (by decide) (by decide) rfl).2.2.2.2.2.2 rfl).1

/-- C6: the pre-save hook hashes the password (bcrypt, cost factor 12)
exactly when the password path was modified since load: an unmodified
password is saved unchanged with no re-hash, a modified one is replaced
by the bcrypt digest, a hashing failure propagates as an error, and
(granted that bcrypt never returns its input) the stored secret after a
modified save is never the plaintext. -/
theorem pre_save_hashing (bch : Nat → String → Except String String)
    (u : UserAccount) (hb : ∀ p h, bch 12 p = Except.ok h → h ≠ p) :
    (u.passwordModified = false → preSave bch u = Except.ok u) ∧
    (∀ hp, u.passwordModified = true → bch 12 u.password = Except.ok hp →
      preSave bch u = Except.ok { u with password := hp, passwordModified := false }) ∧
    (∀ e, u.passwordModified = true → bch 12 u.password = Except.error e →
      preSave bch u = Except.error e) ∧
    (∀ v, u.passwordModified = true → preSave bch u = Except.ok v →
      bch 12 u.password = Except.ok v.password ∧ v.password ≠ u.password) := by
  refine ⟨fun h => preSave_ok_of_unmodified bch u h, ?_, ?_, ?_⟩
  · intro hp hm hok
    simp [preSave, hm, hok]
  · intro e hm herr
    simp [preSave, hm, herr]
  · intro v hm hok
    rw [preSave, if_pos hm] at hok
    cases hbch : bch 12 u.password with
    | ok hashed =>
      rw [hbch] at hok
      cases hok
      constructor
      · exact rfl
      · exact hb u.password hashed hbch
    | error e => rw [hbch] at hok; cases hok

/-- Witness for C6: a modified password is stored as its digest, here with
a bcrypt stand-in that prepends a marker (so it never returns its input). -/
theorem pre_save_hashing_witness :
    preSave (fun _ s => Except.ok ("$2b$12$" ++ s))
        ⟨"n", "e@x.com", "pw", true, true, none, none, none, true⟩ =
      Except.ok ⟨"n", "e@x.com", "$2b$12$pw", true, true, none, none, none, false⟩ :=
  (pre_save_hashing (fun _ s => Except.ok ("$2b$12$" ++ s))
      ⟨"n", "e@x.com", "pw", true, true, none, none, none, true⟩
      (by
        intro p h hph heq
        have h1 : ("$2b$12$" ++ p) = h := by simpa using hph
        rw [heq] at h1
        have h2 : ("$2b$12$" ++ p).length = p.length := congrArg String.length h1
        rw [String.length_append] at h2
        have h3 : "$2b$12$".length = 7 := rfl
        rw [h3] at h2
        omega)).2.1 "$2b$12$pw" rfl rfl

lemma forgotPasswordPOST_snd (sha : String → String)
    (bch : Nat → String → Except String String) (devMode : Bool) (rnd : String)
    (now : Nat) (db : List UserAccount) (body : ForgotPasswordBody) :
    (forgotPasswordPOST sha bch devMode rnd now db body).2 = db ∨
    ∃ q saved, saved.resetPasswordToken = some (sha rnd) ∧
      saved.resetPasswordExpires = some (now + 10 * 60 * 1000) ∧
      (forgotPasswordPOST sha bch devMode rnd now db body).2 =
        updateFirst q (fun _ => saved) db := by
  by_cases hf : falsyStr body.email = true
  · exact Or.inl (by simp [forgotPasswordPOST, hf])
  cases hfind : db.find? (fun u => u.email == toLowerStr (body.email.getD "")) with
  | none => exact Or.inl (by simp [forgotPasswordPOST, hf, hfind])
  | some user =>
    cases hact : user.isActive with
    | false => exact Or.inl (by simp [forgotPasswordPOST, hf, hfind, load, hact])
    | true =>
      simp only [forgotPasswordPOST, hf, hfind, Option.map_some', load, hact,
        Bool.not_true, Bool.false_eq_true, if_false, ite_false]
      split
      · rename_i saved hsave
        right
        refine ⟨fun u => u.email == toLowerStr (body.email.getD ""), saved, ?_, ?_, rfl⟩
        · have h := (preSave_ok_fields bch hsave).2.2.2.2.1
          simpa [generatePasswordResetToken] using h
        · have h := (preSave_ok_fields bch hsave).2.2.2.2.2.1
          simpa [generatePasswordResetToken] using h
      · exact Or.inl rfl

lemma resetPasswordPOST_snd (sha : String → String)
    (bch : Nat → String → Except String String) (now : Nat)
    (db : List UserAccount) (body : ResetPasswordBody) :
    (resetPasswordPOST sha bch now db body).2 = db ∨
    ∃ q saved, saved.resetPasswordToken = none ∧ saved.resetPasswordExpires = none ∧
      (resetPasswordPOST sha bch now db body).2 = updateFirst q (fun _ => saved) db := by
  by_cases h1 : (falsyStr body.token || falsyStr body.password || falsyStr body.confirmPassword) = true
  · exact Or.inl (by simp [resetPasswordPOST, h1])
  by_cases h2 : body.password.getD "" = body.confirmPassword.getD ""
  case neg => exact Or.inl (by simp [resetPasswordPOST, h1, h2])
  by_cases h3 : (body.password.getD "").length < 6
  · exact Or.inl (by rw [h2] at h3; simp [resetPasswordPOST, h1, h2, h3])
  cases hfind : db.find? (resetTokenQueryMatch (sha (body.token.getD "")) now) with
  | none => exact Or.inl (by rw [h2] at h3; simp [resetPasswordPOST, h1, h2, h3, hfind])
  | some user =>
    rw [h2] at h3
    simp only [resetPasswordPOST, h1, h2, h3, hfind, load, clearPasswordResetToken]
    simp only [Option.map_some', if_false, ite_false, Bool.false_eq_true, ne_eq,
      not_true, not_false_iff]
    split
    · rename_i saved hsave
      right
      refine ⟨resetTokenQueryMatch (sha (body.token.getD "")) now, saved, ?_, ?_, rfl⟩
      · exact (preSave_ok_fields bch hsave).2.2.2.2.1
      · exact (preSave_ok_fields bch hsave).2.2.2.2.2.1
    · exact Or.inl rfl

/-- C7: the reset-token fields are set and cleared together: issuing a
token stores exactly the digest of the fresh plaintext together with its
expiry and hands the plaintext back to the caller, clearing removes both
fields, both routes preserve the both-absent-or-both-present invariant on
every stored account, and (as the digest differs from the plaintext) the
plaintext itself is never what is stored. -/
theorem reset_token_fields_invariant (sha : String → String)
    (bch : Nat → String → Except String String) (rnd : String) (now : Nat)
    (u : UserAccount) (hne : sha rnd ≠ rnd) :
    (generatePasswordResetToken sha rnd now u).1 = rnd ∧
    (generatePasswordResetToken sha rnd now u).2.resetPasswordToken = some (sha rnd) ∧
    (generatePasswordResetToken sha rnd now u).2.resetPasswordExpires =
      some (now + 10 * 60 * 1000) ∧
    resetConsistent (generatePasswordResetToken sha rnd now u).2 ∧
    (generatePasswordResetToken sha rnd now u).2.resetPasswordToken ≠ some rnd ∧
    (∀ v : UserAccount, (clearPasswordResetToken v).resetPasswordToken = none ∧
      (clearPasswordResetToken v).resetPasswordExpires = none ∧
      resetConsistent (clearPasswordResetToken v)) ∧
    (∀ devMode db body x, (∀ w ∈ db, resetConsistent w) →
      x ∈ (forgotPasswordPOST sha bch devMode rnd now db body).2 → resetConsistent x) ∧
    (∀ db body x, (∀ w ∈ db, resetConsistent w) →
      x ∈ (resetPasswordPOST sha bch now db body).2 → resetConsistent x) := by
  refine ⟨rfl, rfl, rfl, rfl, ?_, ?_, ?_, ?_⟩
  · simp [generatePasswordResetToken, hne]
  · intro v
    exact ⟨rfl, rfl, rfl⟩
  · intro devMode db body x hdb hx
    rcases forgotPasswordPOST_snd sha bch devMode rnd now db body with h | ⟨q, saved, h1, h2, h3⟩
    · rw [h] at hx; exact hdb x hx
    · rw [h3] at hx
      rcases mem_updateFirst q _ db x hx with hxm | ⟨w, _, he⟩
      · exact hdb x hxm
      · rw [he]
        simp [resetConsistent, h1, h2]
  · intro db body x hdb hx
    rcases resetPasswordPOST_snd sha bch now db body with h | ⟨q, saved, h1, h2, h3⟩
    · rw [h] at hx; exact hdb x hx
    · rw [h3] at hx
      rcases mem_updateFirst q _ db x hx with hxm | ⟨w, _, he⟩
      · exact hdb x hxm
      · rw [he]
        simp [resetConsistent, h1, h2]

/-- Witness for C7 at a concrete issuance whose digest differs from the
plaintext. -/
theorem reset_token_fields_invariant_witness :
    (generatePasswordResetToken (fun s => "#" ++ s) "r" 5
        ⟨"n", "e@x.com", "pw", true, true, none, none, none, false⟩).2.resetPasswordToken =
      some "#r" :=
  (reset_token_fields_invariant (fun s => "#" ++ s) (fun _ s => Except.ok s) "r" 5
      ⟨"n", "e@x.com", "pw", true, true, none, none, none, false⟩ (by decide)).2.1

/-- C9: issuing a reset token while one is outstanding overwrites both
stored fields with the new token's digest and expiry, and the validation
filter then rejects the old plaintext at every later time (no collision
between the two digests assumed). -/
theorem reissue_overwrites_old_token (sha : String → String) (rnd1 rnd2 : String)
    (n1 n2 : Nat) (u : UserAccount) (hne : sha rnd1 ≠ sha rnd2) :
    ((generatePasswordResetToken sha rnd2 n2
        (generatePasswordResetToken sha rnd1 n1 u).2).2.resetPasswordToken =
      some (sha rnd2)) ∧
    ((generatePasswordResetToken sha rnd2 n2
        (generatePasswordResetToken sha rnd1 n1 u).2).2.resetPasswordExpires =
      some (n2 + 10 * 60 * 1000)) ∧
    (∀ now, resetTokenQueryMatch (sha rnd1) now
        (generatePasswordResetToken sha rnd2 n2
          (generatePasswordResetToken sha rnd1 n1 u).2).2 = false) := by
  refine ⟨rfl, rfl, ?_⟩
  intro now
  simp [generatePasswordResetToken, resetTokenQueryMatch]
  intro h
  exact absurd h.symm hne

/-- Witness for C9 at concrete tokens with distinct digests. -/
theorem reissue_overwrites_old_token_witness :
    resetTokenQueryMatch "#a" 7
        (generatePasswordResetToken (fun s => "#" ++ s) "b" 3
          (generatePasswordResetToken (fun s => "#" ++ s) "a" 1
            ⟨"n", "e@x.com", "pw", true, true, none, none, none, false⟩).2).2 = false :=
  (reissue_overwrites_old_token (fun s => "#" ++ s) "a" "b" 1 3
      ⟨"n", "e@x.com", "pw", true, true, none, none, none, false⟩ (by decide)).2.2 7

/-- C4: a first-login account never gets a bearer token: authenticate
answers PasswordResetRequired carrying a fresh reset token, and the
client handler stores no session token but redirects to the
reset-password page with that token in the query string. -/
theorem first_login_no_bearer_token (verify : String → String → Bool)
    (sha : String → String) (issueToken : String → String) (rnd : String)
    (now : Nat) (db : List UserAccount) (email password : String) (u : UserAccount)
    (hfind : db.find? (fun v => v.email == toLowerStr email) = some u)
    (hact : u.isActive = true)
    (hver : verify password u.password = true)
    (hfirst : u.isFirstLogin = true) :
    (authenticate verify sha issueToken rnd now db email password).1 =
      LoginOutcome.resetRequired rnd ∧
    (∀ t, (authenticate verify sha issueToken rnd now db email password).1 ≠
      LoginOutcome.authenticated t) ∧
    handleLoginResponse (loginResponseOf
        (authenticate verify sha issueToken rnd now db email password).1) =
      ⟨none, some ("/reset-password?token=" ++ rnd ++ "&first=true"), none⟩ := by
  have h1 : (authenticate verify sha issueToken rnd now db email password).1 =
      LoginOutcome.resetRequired rnd := by
    simp [authenticate, hfind, load, hact, hver, hfirst, generatePasswordResetToken]
  refine ⟨h1, ?_, ?_⟩
  · intro t
    rw [h1]
    simp
  · rw [h1]
    simp [loginResponseOf, handleLoginResponse]

/-- Witness for C4 at a concrete one-account store. -/
theorem first_login_no_bearer_token_witness :
    (authenticate (fun p s => p == s) (fun s => "#" ++ s) (fun e => e) "rt" 0
        [⟨"n", "a@x.com", "pw", true, true, none, none, none, false⟩]
        "a@x.com" "pw").1 = LoginOutcome.resetRequired "rt" :=
  (first_login_no_bearer_token (fun p s => p == s) (fun s => "#" ++ s) (fun e => e)
      "rt" 0 [⟨"n", "a@x.com", "pw", true, true, none, none, none, false⟩]
      "a@x.com" "pw" ⟨"n", "a@x.com", "pw", true, true, none, none, none, false⟩
      (by decide) rfl (by decide) rfl).1

/-- C5: a successful POST /reset-password performs its four updates in the
single saved record: first-login ended, password replaced by the bcrypt
digest of the new one (re-hashed by the pre-save hook), both reset-token
fields cleared, and lastLoginAt stamped; everything else is unchanged and
the store changes only at the matched record. -/
theorem reset_password_success_transaction (sha : String → String)
    (bch : Nat → String → Except String String) (now : Nat) (db : List UserAccount)
    (tok pw hpw : String) (u : UserAccount)
    (htok : tok ≠ "") (hpw0 : pw ≠ "") (hlen : ¬ pw.length < 6)
    (hfind : db.find? (resetTokenQueryMatch (sha tok) now) = some u)
    (hb : bch 12 pw = Except.ok hpw) :
    resetPasswordPOST sha bch now db ⟨some tok, some pw, some pw⟩ =
      (respResetOk,
        updateFirst (resetTokenQueryMatch (sha tok) now)
          (fun _ => ⟨u.name, u.email, hpw, u.isActive, false, none, none, some now, false⟩)
          db) := by
  simp [resetPasswordPOST, falsyStr, htok, hpw0, hlen, hfind, load,
    clearPasswordResetToken, preSave, hb]

/-- Witness for C5 at a concrete store holding one account with an
outstanding unexpired token. -/
theorem reset_password_success_transaction_witness :
    resetPasswordPOST (fun s => "#" ++ s) (fun _ s => Except.ok ("$" ++ s)) 50
        [⟨"n", "a@x.com", "old", true, true, some "#tk", some 100, none, false⟩]
        ⟨some "tk", some "newpass", some "newpass"⟩ =
      (respResetOk,
        [⟨"n", "a@x.com", "$newpass", true, false, none, none, some 50, false⟩]) := by
  have h := reset_password_success_transaction (fun s => "#" ++ s)
    (fun _ s => Except.ok ("$" ++ s)) 50
    [⟨"n", "a@x.com", "old", true, true, some "#tk", some 100, none, false⟩]
    "tk" "newpass" "$newpass"
    ⟨"n", "a@x.com", "old", true, true, some "#tk", some 100, none, false⟩
    (by decide) (by decide) (by decide) (by decide) rfl
  rw [h]
  rfl

lemma expiresAfter_eq_true_iff (now : Nat) (v : UserAccount) :
    expiresAfter now v = true ↔ ∃ e, v.resetPasswordExpires = some e ∧ now < e := by
  unfold expiresAfter
  cases h : v.resetPasswordExpires with
  | none => simp
  | some e => simp

/-- C2: a reset token issued at T expires exactly at T plus ten minutes:
the stored expiry is exactly T + 10min, the reset-password lookup filter
is equivalent to digest equality together with a strictly future expiry,
a matching-but-expired token is rejected, and the full route accepts the
token at T + 9min but rejects it at T + 10min and at T + 10min + 1s. -/
theorem reset_token_expiry_window (sha : String → String)
    (bch : Nat → String → Except String String) (rnd pw hpw : String) (T : Nat)
    (u : UserAccount)
    (hrnd : rnd ≠ "") (hpw0 : pw ≠ "") (hlen : ¬ pw.length < 6)
    (hb : bch 12 pw = Except.ok hpw) :
    ((generatePasswordResetToken sha rnd T u).2.resetPasswordExpires =
      some (T + 10 * 60 * 1000)) ∧
    (∀ H now v, resetTokenQueryMatch H now v = true ↔
      (v.resetPasswordToken = some H ∧ ∃ e, v.resetPasswordExpires = some e ∧ now < e)) ∧
    (∀ H now v e, v.resetPasswordToken = some H → v.resetPasswordExpires = some e →
      e ≤ now → resetTokenQueryMatch H now v = false) ∧
    (resetTokenQueryMatch (sha rnd) (T + 9 * 60 * 1000)
      (generatePasswordResetToken sha rnd T u).2 = true) ∧
    (resetTokenQueryMatch (sha rnd) (T + 10 * 60 * 1000)
      (generatePasswordResetToken sha rnd T u).2 = false) ∧
    (resetTokenQueryMatch (sha rnd) (T + 10 * 60 * 1000 + 1000)
      (generatePasswordResetToken sha rnd T u).2 = false) ∧
    ((resetPasswordPOST sha bch (T + 9 * 60 * 1000)
      [(generatePasswordResetToken sha rnd T u).2] ⟨some rnd, some pw, some pw⟩).1 =
      respResetOk) ∧
    ((resetPasswordPOST sha bch (T + 10 * 60 * 1000)
      [(generatePasswordResetToken sha rnd T u).2] ⟨some rnd, some pw, some pw⟩).1 =
      respInvalidToken) ∧
    ((resetPasswordPOST sha bch (T + 10 * 60 * 1000 + 1000)
      [(generatePasswordResetToken sha rnd T u).2] ⟨some rnd, some pw, some pw⟩).1 =
      respInvalidToken) := by
  have hq9 : resetTokenQueryMatch (sha rnd) (T + 9 * 60 * 1000)
      (generatePasswordResetToken sha rnd T u).2 = true := by
    simp [resetTokenQueryMatch, generatePasswordResetToken, expiresAfter]
  have hq10 : resetTokenQueryMatch (sha rnd) (T + 10 * 60 * 1000)
      (generatePasswordResetToken sha rnd T u).2 = false := by
    simp [resetTokenQueryMatch, generatePasswordResetToken, expiresAfter]
  have hq11 : resetTokenQueryMatch (sha rnd) (T + 10 * 60 * 1000 + 1000)
      (generatePasswordResetToken sha rnd T u).2 = false := by
    simp [resetTokenQueryMatch, generatePasswordResetToken, expiresAfter]
  refine ⟨rfl, ?_, ?_, hq9, hq10, hq11, ?_, ?_, ?_⟩
  · intro H now v
    simp [resetTokenQueryMatch, Bool.and_eq_true, beq_iff_eq, expiresAfter_eq_true_iff]
  · intro H now v e h1 h2 h3
    simp [resetTokenQueryMatch, expiresAfter, h1, h2]
    omega
  · simp [resetPasswordPOST, falsyStr, hrnd, hpw0, hlen, List.find?, hq9, load,
      clearPasswordResetToken, preSave, hb]
  · simp [resetPasswordPOST, falsyStr, hrnd, hpw0, hlen, List.find?, hq10]
  · simp [resetPasswordPOST, falsyStr, hrnd, hpw0, hlen, List.find?, hq11]

/-- Witness for C2 at a concrete issuance and password. -/
theorem reset_token_expiry_window_witness :
    (resetPasswordPOST (fun s => "#" ++ s) (fun _ s => Except.ok ("$" ++ s)) (9 * 60 * 1000)
      [(generatePasswordResetToken (fun s => "#" ++ s) "tk" 0
          ⟨"n", "a@x.com", "old", true, true, none, none, none, false⟩).2]
      ⟨some "tk", some "newpass", some "newpass"⟩).1 = respResetOk ∧
    (resetPasswordPOST (fun s => "#" ++ s) (fun _ s => Except.ok ("$" ++ s)) (10 * 60 * 1000)
      [(generatePasswordResetToken (fun s => "#" ++ s) "tk" 0
          ⟨"n", "a@x.com", "old", true, true, none, none, none, false⟩).2]
      ⟨some "tk", some "newpass", some "newpass"⟩).1 = respInvalidToken := by
  have h := reset_token_expiry_window (fun s => "#" ++ s) (fun _ s => Except.ok ("$" ++ s))
    "tk" "newpass" "$newpass" 0
    ⟨"n", "a@x.com", "old", true, true, none, none, none, false⟩
    (by decide) (by decide) (by decide) rfl
  exact ⟨by simpa using h.2.2.2.2.2.2.1, by simpa using h.2.2.2.2.2.2.2.1⟩

lemma find_after_consume (H : String) (n1 n2 : Nat) (saved : UserAccount)
    (hsv : saved.resetPasswordToken = none) (hle : n1 ≤ n2) :
    ∀ db : List UserAccount,
      db.countP (fun v => v.resetPasswordToken == some H) ≤ 1 →
      (db.find? (resetTokenQueryMatch H n1)).isSome = true →
      (updateFirst (resetTokenQueryMatch H n1) (fun _ => saved) db).find?
        (resetTokenQueryMatch H n2) = none
  | [], _, hf => by simp at hf
  | w :: rest, hc, hf => by
    by_cases h : resetTokenQueryMatch H n1 w = true
    · rw [updateFirst, if_pos h]
      have hw : (fun v => v.resetPasswordToken == some H) w = true := by
        have h2 := h
        simp only [resetTokenQueryMatch, Bool.and_eq_true] at h2
        exact h2.1
      have hcrest : rest.countP (fun v => v.resetPasswordToken == some H) = 0 := by
        rw [List.countP_cons_of_pos (fun v => v.resetPasswordToken == some H) rest hw] at hc
        omega
      have hnone : rest.find? (resetTokenQueryMatch H n2) = none := by
        rw [List.find?_eq_none]
        intro x hx hpx
        have hxn : (fun v => v.resetPasswordToken == some H) x = true := by
          simp only [resetTokenQueryMatch, Bool.and_eq_true] at hpx
          exact hpx.1
        have hzero := List.countP_eq_zero.mp hcrest x hx
        exact absurd hxn hzero
      have hsaved : resetTokenQueryMatch H n2 saved = false := by
        simp [resetTokenQueryMatch, hsv]
      rw [List.find?_cons_of_neg _ (by simp [hsaved])]
      exact hnone
    · rw [updateFirst, if_neg h]
      have hn2 : resetTokenQueryMatch H n2 w = false := by
        cases htok : (w.resetPasswordToken == some H) with
        | false => simp [resetTokenQueryMatch, htok]
        | true =>
          have hexp : expiresAfter n1 w = false := by
            cases hex : expiresAfter n1 w with
            | false => rfl
            | true => exact absurd (by simp [resetTokenQueryMatch, htok, hex]) h
          have hexp2 := expiresAfter_mono hle w hexp
          simp [resetTokenQueryMatch, hexp2]
      rw [List.find?_cons_of_neg _ (by simp [hn2])]
      apply find_after_consume H n1 n2 saved hsv hle rest
      · have hstep : rest.countP (fun v => v.resetPasswordToken == some H) ≤
            (w :: rest).countP (fun v => v.resetPasswordToken == some H) := by
          rw [List.countP_cons]
          omega
        omega
      · rw [List.find?_cons_of_neg _ (by simp [h])] at hf
        exact hf

/-- C1: a reset token is single-use: when POST /reset-password succeeds,
the same save clears the stored digest and expiry, so a second
POST /reset-password presenting the same plaintext token (at any time not
earlier, with at most one account carrying that digest) finds no matching
account and fails with the invalid-or-expired error, leaving the store
unchanged. -/
theorem reset_token_single_use (sha : String → String)
    (bch : Nat → String → Except String String) (n1 n2 : Nat) (db : List UserAccount)
    (tok pw : String) (r1 : ApiResponse) (db1 : List UserAccount)
    (hle : n1 ≤ n2)
    (hcount : db.countP (fun v => v.resetPasswordToken == some (sha tok)) ≤ 1)
    (h1 : resetPasswordPOST sha bch n1 db ⟨some tok, some pw, some pw⟩ = (r1, db1))
    (hs : r1.success = true) :
    resetPasswordPOST sha bch n2 db1 ⟨some tok, some pw, some pw⟩ =
      (respInvalidToken, db1) := by
  by_cases htok : tok = ""
  · exfalso
    simp [resetPasswordPOST, falsyStr, htok, Prod.mk.injEq] at h1
    rw [← h1.1] at hs
    simp [respRequired] at hs
  by_cases hpw0 : pw = ""
  · exfalso
    simp [resetPasswordPOST, falsyStr, htok, hpw0, Prod.mk.injEq] at h1
    rw [← h1.1] at hs
    simp [respRequired] at hs
  by_cases hlen : pw.length < 6
  · exfalso
    simp [resetPasswordPOST, falsyStr, htok, hpw0, hlen, Prod.mk.injEq] at h1
    rw [← h1.1] at hs
    simp [respTooShort] at hs
  cases hfind : db.find? (resetTokenQueryMatch (sha tok) n1) with
  | none =>
    exfalso
    simp [resetPasswordPOST, falsyStr, htok, hpw0, hlen, hfind, Prod.mk.injEq] at h1
    rw [← h1.1] at hs
    simp [respInvalidToken] at hs
  | some u0 =>
    cases hbch : bch 12 pw with
    | error e =>
      exfalso
      simp [resetPasswordPOST, falsyStr, htok, hpw0, hlen, hfind, load,
        clearPasswordResetToken, preSave, hbch, Prod.mk.injEq] at h1
      rw [← h1.1] at hs
      simp [respResetFail] at hs
    | ok hpw =>
      have heq := reset_password_success_transaction sha bch n1 db tok pw hpw u0
        htok hpw0 hlen hfind hbch
      rw [heq, Prod.mk.injEq] at h1
      have hfind2 : db1.find? (resetTokenQueryMatch (sha tok) n2) = none := by
        rw [← h1.2]
        apply find_after_consume (sha tok) n1 n2
          ⟨u0.name, u0.email, hpw, u0.isActive, false, none, none, some n1, false⟩
          rfl hle db hcount
        rw [hfind]
        rfl
      simp [resetPasswordPOST, falsyStr, htok, hpw0, hlen, hfind2]

/-- Witness for C1 at a concrete store: the first reset succeeds and the
replay of the same token fails. -/
theorem reset_token_single_use_witness :
    resetPasswordPOST (fun s => "#" ++ s) (fun _ s => Except.ok ("$" ++ s)) 60
        [⟨"n", "a@x.com", "$newpass", true, false, none, none, some 50, false⟩]
        ⟨some "tk", some "newpass", some "newpass"⟩ =
      (respInvalidToken,
        [⟨"n", "a@x.com", "$newpass", true, false, none, none, some 50, false⟩]) :=
  reset_token_single_use (fun s => "#" ++ s) (fun _ s => Except.ok ("$" ++ s)) 50 60
    [⟨"n", "a@x.com", "old", true, true, some "#tk", some 100, none, false⟩]
    "tk" "newpass" respResetOk
    [⟨"n", "a@x.com", "$newpass", true, false, none, none, some 50, false⟩]
    (by decide) (by decide) (by decide) rfl

end QaMonitor
